import Mathlib

/-!
Verification development for the news-extraction pipeline
(src/extract_news.py, src/parse_news.py, src/parse_self_content.py).

The Python sources are shallowly embedded as executable Lean definitions.
External collaborators (the HTTP layer, the Trafilatura library call, the
LLM endpoint, the wall-clock alarm) are modelled as explicit environment
parameters; everything the repository itself computes is translated
directly from the source.

Python string primitives are re-implemented over `List Char` with
structural recursion so every definition evaluates by `decide` and
`rfl`: `pyStrip` models `str.strip()` (ASCII whitespace), `pyLower`
models `str.lower()` (ASCII case), `pyIn` models the `in` substring
test, `pyReplace` models `str.replace` (all occurrences, left to
right), `pySplitComma` models `str.split` on a comma.
-/

namespace NewsExtraction

/-- Whitespace characters stripped by Python `str.strip()` (ASCII range). -/
def pyIsWs (c : Char) : Bool :=
  c = ' ' || c = '\t' || c = '\n' || c = '\x0d' || c = '\x0b' || c = '\x0c'

/-- Python `s.strip()`: drop leading and trailing whitespace. -/
def pyStrip (s : String) : String :=
  ⟨((s.data.dropWhile pyIsWs).reverse.dropWhile pyIsWs).reverse⟩

/-- Python `s.lower()` (ASCII letters, which covers every string the
theorems evaluate). -/
def pyLower (s : String) : String :=
  ⟨s.data.map Char.toLower⟩

/-- Python `s.startswith(pre)`. -/
def pyStartsWith (s pre : String) : Bool :=
  pre.data.isPrefixOf s.data

/-- `needle` occurs as a contiguous run inside `hay` (char-list form). -/
def listIsInfix (n : List Char) : List Char → Bool
  | [] => n.isEmpty
  | c :: t => n.isPrefixOf (c :: t) || listIsInfix n t

/-- Python `needle in hay` substring test. -/
def pyIn (needle hay : String) : Bool :=
  listIsInfix needle.data hay.data

/-- Worker for `pyReplace`; the fuel starts at the length of the scanned
list, enough because each step consumes at least one character. -/
def pyReplaceAux (old new : List Char) : Nat → List Char → List Char
  | _, [] => []
  | 0, s => s
  | fuel + 1, c :: t =>
    if old ≠ [] ∧ old.isPrefixOf (c :: t) then
      new ++ pyReplaceAux old new fuel (List.drop old.length (c :: t))
    else
      c :: pyReplaceAux old new fuel t

/-- Python `s.replace(old, new)`: replace every occurrence, scanning left
to right (the sources only call it with a non-empty `old`). -/
def pyReplace (s old new : String) : String :=
  ⟨pyReplaceAux old.data new.data s.data.length s.data⟩

/-- Worker for `pySplitComma`. -/
def pySplitAux (cur : List Char) : List Char → List (List Char)
  | [] => [cur.reverse]
  | c :: t => if c = ',' then cur.reverse :: pySplitAux [] t else pySplitAux (c :: cur) t

/-- Python `s.split(stringOfComma)`. -/
def pySplitComma (s : String) : List String :=
  (pySplitAux [] s.data).map String.mk

/-- Join a list of strings with a separator, Python `sep.join(parts)`
restricted to the non-empty lists the scraper produces. -/
def joinWith (sep : String) : List String → String
  | [] => ""
  | [x] => x
  | x :: y :: t => x ++ sep ++ joinWith sep (y :: t)

/-! ## Stage 1: extract_news.py — provider client and multi-page scraper -/

/-- Scraper settings from extract_news.py (module constants). -/
def MAX_PAGES : Nat := 5

/-- Retry bound for 403 responses (extract_news.py). -/
def MAX_RETRIES : Nat := 3

/-- Seconds slept between consecutive 403 retries (extract_news.py). -/
def RETRY_DELAY : Nat := 5

/-- One article object inside the Diffbot JSON `objects` array; the
Python code reads each field with `.get(key, the empty string)`, so a
missing field is collapsed to the empty string here. -/
structure DiffbotArticle where
  title : String
  text : String
  author : String
  date : String
deriving DecidableEq, Repr

/-- The decoded JSON body of an HTTP-200 Diffbot response: an optional
`error` field and an optional `objects` array. -/
structure DiffbotJson where
  error : Option String
  objects : Option (List DiffbotArticle)
deriving DecidableEq, Repr

/-- Outcome of one `requests.get` call inside `scrape_with_diffbot`. -/
inductive HttpOutcome where
  | ok (status : Nat) (body : DiffbotJson)
  | timeout
  | connectionError
  | exn (msg : String)
deriving DecidableEq, Repr

/-- The dictionary `scrape_with_diffbot` returns: either an error record
with a kind tag and message, or a success record (method `diffbot`). -/
inductive DiffbotResult where
  | err (kind msg : String)
  | ok (title content date author : String)
deriving DecidableEq, Repr

/-- `scrape_with_diffbot` (extract_news.py): classify one HTTP outcome,
given the caller's `retry_count`, into the error taxonomy or a success
record.  Mirrors the source's branch order exactly. -/
def scrape_with_diffbot (resp : HttpOutcome) (retry_count : Nat) : DiffbotResult :=
  match resp with
  | .ok status body =>
    if status = 200 then
      match body.error with
      | some error_msg =>
        if pyIn "rate limit" (pyLower error_msg) || pyIn "429" error_msg then
          .err "RATE_LIMIT" error_msg
        else if pyIn "403" error_msg || pyIn "forbidden" (pyLower error_msg) then
          if retry_count < MAX_RETRIES then .err "FORBIDDEN_RETRY" error_msg
          else .err "FORBIDDEN" error_msg
        else if pyIn "could not download" (pyLower error_msg) then
          .err "DOWNLOAD_FAILED" error_msg
        else
          .err "API_ERROR" error_msg
      | none =>
        match body.objects with
        | some (article :: _) =>
          .ok article.title article.text article.date article.author
        | _ => .err "NO_CONTENT" "No article content found"
    else if status = 429 then .err "RATE_LIMIT" "HTTP 429 - Too Many Requests"
    else if status = 403 then
      if retry_count < MAX_RETRIES then
        .err "FORBIDDEN_RETRY" "HTTP 403 - Access Forbidden"
      else .err "FORBIDDEN" "HTTP 403 - Access Forbidden"
    else if status = 500 then .err "SERVER_ERROR" "HTTP 500 - Server Error"
    else .err "HTTP_ERROR" ("HTTP " ++ toString status)
  | .timeout => .err "TIMEOUT" "Request timeout (>45s)"
  | .connectionError => .err "CONNECTION_ERROR" "Network connection failed"
  | .exn msg => .err "EXCEPTION" msg

/-- `result.get(the error key) == FORBIDDEN_RETRY` test in the retry loop. -/
def isForbiddenRetry : DiffbotResult → Bool
  | .err kind _ => kind = "FORBIDDEN_RETRY"
  | .ok _ _ _ _ => false

/-- Worker for `retryLoop`: the `for attempt in range(MAX_RETRIES + 1)`
loop of `scrape_all_pages`.  Returns the final result (`none` models the
Python `result = None` of an empty range, unreachable here), the number
of provider attempts made, and the number of `RETRY_DELAY`-second
sleeps taken. -/
def retryLoopAux (fetch : Nat → DiffbotResult) : Nat → Nat → Option DiffbotResult × Nat × Nat
  | _, 0 => (none, 0, 0)
  | attempt, fuel + 1 =>
    let r := fetch attempt
    if isForbiddenRetry r then
      if fuel = 0 then (some r, 1, 1)
      else
        let (r2, n, s) := retryLoopAux fetch (attempt + 1) fuel
        (r2, n + 1, s + 1)
    else (some r, 1, 0)

/-- The per-page retry loop of `scrape_all_pages`: attempt indices
0..MAX_RETRIES, retrying only on the FORBIDDEN_RETRY sub-kind. -/
def retryLoop (fetch : Nat → DiffbotResult) : Option DiffbotResult × Nat × Nat :=
  retryLoopAux fetch 0 (MAX_RETRIES + 1)

/-- `detect_pagination` (extract_news.py): page 1 is the base URL, pages
2..MAX_PAGES follow the per-domain query convention. -/
def detect_pagination (base_url : String) : List String :=
  if pyIn "tribunnews.com" base_url then
    base_url :: (List.range' 2 (MAX_PAGES - 1)).map
      (fun page_num => base_url ++ "?page=" ++ toString page_num ++ "&s=paging_new")
  else
    base_url :: (List.range' 2 (MAX_PAGES - 1)).map
      (fun page_num => base_url ++ "?page=" ++ toString page_num)

/-- Environment of a whole-article scrape: the HTTP outcome of the
Diffbot request for each (page index, attempt) pair, and the
Trafilatura library's answer for each page URL.  Indexing by the
1-based page number is equivalent to indexing by the page URL, since
`detect_pagination` builds one distinct URL per page. -/
structure ScrapeEnv where
  http : Nat → Nat → HttpOutcome
  traf : Nat → Option DiffbotArticle

/-- The mutable state of the `scrape_all_pages` loop: the accumulator
`all_content` plus the metadata fields of `extracted_data`. -/
structure ScrapeState where
  allContent : List String
  title : String
  date : String
  author : String
  method : String
deriving DecidableEq, Repr

/-- Initial `extracted_data` of `scrape_all_pages`. -/
def initScrapeState : ScrapeState :=
  ⟨[], "", "", "", "diffbot"⟩

/-- Whether the page loop continues to the next page or breaks. -/
inductive StepOut where
  | cont (st : ScrapeState)
  | stop (st : ScrapeState)
deriving DecidableEq, Repr

/-- Per-page instrumentation: how many Diffbot attempts were made, how
many `RETRY_DELAY`-second retry sleeps were taken, and whether the
Trafilatura fallback was invoked on this page. -/
structure PageStats where
  attempts : Nat
  retrySleeps : Nat
  trafTried : Bool
deriving DecidableEq, Repr

/-- The `Trying Trafilatura` sub-branch shared by every error kind on
page 1: accept the fallback output only when its content is non-empty
and longer than 100 characters, else break the page loop. -/
def tryTrafilatura (env : ScrapeEnv) (i : Nat) (st : ScrapeState) : StepOut :=
  match env.traf i with
  | some traf_result =>
    if traf_result.text ≠ "" ∧ traf_result.text.length > 100 then
      .cont { st with
        allContent := st.allContent ++ [traf_result.text],
        title := traf_result.title,
        date := traf_result.date,
        author := traf_result.author,
        method := "trafilatura" }
    else .stop st
  | none => .stop st

/-- The error dispatch of `scrape_all_pages` (the `if result and error in
result` arm), mirroring the source's four branches; the Bool records
whether the Trafilatura fallback was invoked. -/
def handleError (env : ScrapeEnv) (i : Nat) (st : ScrapeState) (error_type : String) :
    StepOut × Bool :=
  if error_type = "RATE_LIMIT" then
    if i = 1 then (tryTrafilatura env i st, true) else (.stop st, false)
  else if error_type = "FORBIDDEN" then
    if i = 1 then (tryTrafilatura env i st, true) else (.stop st, false)
  else if error_type = "NO_CONTENT" then
    if i > 1 then (.stop st, false) else (tryTrafilatura env i st, true)
  else
    if i > 1 then (.stop st, false) else (tryTrafilatura env i st, true)

/-- One iteration of the page loop of `scrape_all_pages` for page `i`:
run the bounded retry loop, then branch on error kind / success body /
empty body exactly as the source does. -/
def processPage (env : ScrapeEnv) (i : Nat) (st : ScrapeState) : StepOut × PageStats :=
  match retryLoop (fun attempt => scrape_with_diffbot (env.http i attempt) attempt) with
  | (result, n, sleeps) =>
    match result with
    | some (.err error_type _) =>
      match handleError env i st error_type with
      | (out, tt) => (out, ⟨n, sleeps, tt⟩)
    | some (.ok title content date author) =>
      if content ≠ "" ∧ content.length > 100 then
        if st.allContent.getLast? = some content then
          (.stop st, ⟨n, sleeps, false⟩)
        else
          let st1 := { st with allContent := st.allContent ++ [content] }
          let st2 := if i = 1 then { st1 with title := title, date := date, author := author }
                     else st1
          (.cont st2, ⟨n, sleeps, false⟩)
      else (.stop st, ⟨n, sleeps, false⟩)
    | none => (.stop st, ⟨n, sleeps, false⟩)

/-- Drive the page loop from page `i` with `fuel` pages remaining,
collecting the per-page statistics. -/
def scrapePagesAux (env : ScrapeEnv) : Nat → Nat → ScrapeState → ScrapeState × List PageStats
  | _, 0, st => (st, [])
  | i, fuel + 1, st =>
    match processPage env i st with
    | (.stop st2, ps) => (st2, [ps])
    | (.cont st2, ps) =>
      match scrapePagesAux env (i + 1) fuel st2 with
      | (stF, rest) => (stF, ps :: rest)

/-- The finalized `extracted_data` record of a successful scrape. -/
structure ExtractedData where
  title : String
  content : String
  date : String
  author : String
  pages_scraped : Nat
  method : String
deriving DecidableEq, Repr

/-- The literal separator joining accepted page bodies. -/
def PAGE_BREAK : String := "\n\n---PAGE BREAK---\n\n"

/-- `scrape_all_pages` (extract_news.py): run the page loop over the
planned page URLs, then join the accepted bodies with the page-break
marker; with zero accepted pages the scrape returns `none`.  The
per-page statistics are returned alongside for the retry/fallback
theorems. -/
def scrape_all_pages (env : ScrapeEnv) (url : String) : Option ExtractedData × List PageStats :=
  match scrapePagesAux env 1 (detect_pagination url).length initScrapeState with
  | (st, stats) =>
    (if st.allContent ≠ [] then
      some ⟨st.title, joinWith PAGE_BREAK st.allContent, st.date, st.author,
            st.allContent.length, st.method⟩
     else none, stats)

/-! ## Stage 2/3: parse_news.py — entity resolver and record flattener -/

/-- One whitelist (roster) entry as loaded by `load_whitelist`: the
alias field is the raw comma-separated, lower-cased, stripped string. -/
structure WhitelistEntry where
  fullname : String
  jabatan : String
  category : String
  «alias» : String
deriving DecidableEq, Repr

/-- The all-empty entry `match_speaker` returns when nothing matches. -/
def emptyMatch : WhitelistEntry := ⟨"", "", "", ""⟩

/-- The alias list scanned by the first pass of `match_speaker`:
`[a.strip() for a in entry[alias].split(comma)] if entry[alias] else []`. -/
def aliasList (entry : WhitelistEntry) : List String :=
  if entry.«alias» ≠ "" then (pySplitComma entry.«alias»).map pyStrip else []

/-- The two containment tests of the first pass for one alias:
`alias and alias in spoke_lower` or `alias and spoke_lower in alias`. -/
def aliasMatches (spoke_lower «alias» : String) : Bool :=
  («alias» ≠ "" && pyIn «alias» spoke_lower) || («alias» ≠ "" && pyIn spoke_lower «alias»)

/-- `match_speaker` (parse_news.py): guard on empty inputs, then the
exact-match pass over individual aliases in both containment
directions, then the partial-match pass checking the speaker text
against the raw alias field only. -/
def match_speaker (spoke_person : String) (whitelist : List WhitelistEntry) : WhitelistEntry :=
  if spoke_person = "" ∨ whitelist = [] then emptyMatch
  else
    let spoke_lower := pyStrip (pyLower spoke_person)
    match whitelist.find? (fun entry => (aliasList entry).any (aliasMatches spoke_lower)) with
    | some entry => entry
    | none =>
      match whitelist.find?
          (fun entry => entry.«alias» ≠ "" && pyIn spoke_lower entry.«alias») with
      | some entry => entry
      | none => emptyMatch

/-- The single bidirectional pass the specification asserts the two-pass
matcher is equivalent to.  Modelled from the spec: one scan of the
roster, accepting an entry when any individual alias is a substring of
the speaker text or the speaker text is a substring of that alias. -/
def match_speaker_single_pass_spec (spoke_person : String)
    (whitelist : List WhitelistEntry) : WhitelistEntry :=
  if spoke_person = "" ∨ whitelist = [] then emptyMatch
  else
    let spoke_lower := pyStrip (pyLower spoke_person)
    match whitelist.find? (fun entry => (aliasList entry).any (aliasMatches spoke_lower)) with
    | some entry => entry
    | none => emptyMatch

/-- One parsed article result as assembled by `batch_parse`
(parse_news.py): identifiers plus the coerced extraction fields. -/
structure ParsedResult where
  id : String
  date : String
  source : String
  quotes : List String
  speakers : List String
  province : Option String
  city : Option String
deriving DecidableEq, Repr

/-- One output row of the final CSV. -/
structure OutputRow where
  id : String
  date : String
  source : String
  quote : String
  spoke_person : String
  province : String
  city : String
  jabatan : String
  category : String
  «alias» : String
  fullname : String
deriving DecidableEq, Repr

/-- Python `x or the empty string` applied to an optional province or
city field (None becomes the empty string; an empty string stays
empty either way). -/
def orEmpty : Option String → String
  | none => ""
  | some s => s

/-- The single row written when an article has no quotes
(`save_parsed_csv`, parse_news.py). -/
def noQuoteRow (r : ParsedResult) : OutputRow :=
  ⟨r.id, r.date, r.source, "", "", orEmpty r.province, orEmpty r.city, "", "", "", ""⟩

/-- The row written for quote index `i` (`save_parsed_csv`,
parse_news.py): `speakers[i] if i < len(speakers) else the empty
string`, resolved through `match_speaker`. -/
def quoteRow (whitelist : List WhitelistEntry) (r : ParsedResult) (i : Nat) (quote : String) :
    OutputRow :=
  let spoke_person := r.speakers.getD i ""
  let m := match_speaker spoke_person whitelist
  ⟨r.id, r.date, r.source, quote, spoke_person, orEmpty r.province, orEmpty r.city,
   m.jabatan, m.category, m.«alias», m.fullname⟩

/-- The `for i, quote in enumerate(quotes)` loop: one row per quote,
numbered from `i`. -/
def flattenQuotes (mk : Nat → String → OutputRow) : Nat → List String → List OutputRow
  | _, [] => []
  | i, q :: qs => mk i q :: flattenQuotes mk (i + 1) qs

/-- The rows `save_parsed_csv` (parse_news.py) writes for one article:
exactly one no-quote row, or one row per quote. -/
def rowsFor (whitelist : List WhitelistEntry) (r : ParsedResult) : List OutputRow :=
  if r.quotes = [] then [noQuoteRow r]
  else flattenQuotes (quoteRow whitelist r) 0 r.quotes

/-- All rows of the final CSV, in result order. -/
def save_parsed_rows (whitelist : List WhitelistEntry) (results : List ParsedResult) :
    List OutputRow :=
  results.flatMap (rowsFor whitelist)

/-! ## Stage 2: parse_news.py — AI response validation -/

/-- A JSON value as produced by `json.loads` (numbers restricted to the
integers; the responses the pipeline validates carry only strings,
arrays, objects and null). -/
inductive Json where
  | null
  | bool (b : Bool)
  | num (n : Int)
  | str (s : String)
  | arr (xs : List Json)
  | obj (kvs : List (String × Json))

/-- Python truthiness of a JSON value. -/
def pyTruthy : Json → Bool
  | .null => false
  | .bool b => b
  | .num n => n != 0
  | .str s => s != ""
  | .arr xs => !xs.isEmpty
  | .obj kvs => !kvs.isEmpty

/-- Dictionary lookup; a duplicated key keeps the last occurrence, as
`json.loads` does. -/
def jsonGet (kvs : List (String × Json)) (k : String) : Option Json :=
  (kvs.reverse.find? (fun p => p.1 == k)).map (fun p => p.2)

/-- Python `d.get(k, default)`. -/
def jsonGetD (kvs : List (String × Json)) (k : String) (d : Json) : Json :=
  (jsonGet kvs k).getD d

/-- JSON whitespace. -/
def isJsonWs (c : Char) : Bool :=
  c = ' ' || c = '\t' || c = '\n' || c = '\x0d'

/-- Skip leading JSON whitespace. -/
def skipWs : List Char → List Char
  | [] => []
  | c :: t => if isJsonWs c then skipWs t else c :: t

/-- Scan a JSON string literal after its opening quote, handling the
single-character escapes (the `\u` form is outside the model). -/
def parseStrAux : List Char → List Char → Option (List Char × List Char)
  | _, [] => none
  | acc, '"' :: t => some (acc.reverse, t)
  | acc, '\\' :: e :: t =>
    match e with
    | '"' => parseStrAux ('"' :: acc) t
    | '\\' => parseStrAux ('\\' :: acc) t
    | '/' => parseStrAux ('/' :: acc) t
    | 'n' => parseStrAux ('\n' :: acc) t
    | 't' => parseStrAux ('\t' :: acc) t
    | 'r' => parseStrAux ('\x0d' :: acc) t
    | 'b' => parseStrAux ('\x08' :: acc) t
    | 'f' => parseStrAux ('\x0c' :: acc) t
    | _ => none
  | _, ['\\'] => none
  | acc, c :: t => parseStrAux (c :: acc) t

/-- Take a maximal run of decimal digits. -/
def takeDigits : List Char → List Char × List Char
  | [] => ([], [])
  | c :: t =>
    if c.isDigit then
      match takeDigits t with
      | (d, r) => (c :: d, r)
    else ([], c :: t)

/-- Decimal digits to a natural number. -/
def digitsToNat (l : List Char) : Nat :=
  l.foldl (fun n c => n * 10 + (c.toNat - 48)) 0

mutual

/-- Recursive-descent JSON value parser with explicit fuel. -/
def parseVal : Nat → List Char → Option (Json × List Char)
  | 0, _ => none
  | fuel + 1, s =>
    match skipWs s with
    | 'n' :: 'u' :: 'l' :: 'l' :: t => some (.null, t)
    | 't' :: 'r' :: 'u' :: 'e' :: t => some (.bool true, t)
    | 'f' :: 'a' :: 'l' :: 's' :: 'e' :: t => some (.bool false, t)
    | '"' :: t =>
      match parseStrAux [] t with
      | some (cs, r) => some (.str (String.mk cs), r)
      | none => none
    | '[' :: t =>
      (match skipWs t with
       | ']' :: t2 => some (.arr [], t2)
       | s2 => parseArrElems fuel s2 [])
    | '{' :: t =>
      (match skipWs t with
       | '}' :: t2 => some (.obj [], t2)
       | s2 => parseObjElems fuel s2 [])
    | '-' :: t =>
      (match takeDigits t with
       | ([], _) => none
       | (ds, r) => some (.num (-(digitsToNat ds : Int)), r))
    | c :: t =>
      if c.isDigit then
        match takeDigits (c :: t) with
        | (ds, r) => some (.num (digitsToNat ds), r)
      else none
    | [] => none

/-- Comma-separated array elements up to the closing bracket. -/
def parseArrElems : Nat → List Char → List Json → Option (Json × List Char)
  | 0, _, _ => none
  | fuel + 1, s, acc =>
    match parseVal fuel s with
    | none => none
    | some (v, r) =>
      match skipWs r with
      | ',' :: t => parseArrElems fuel t (v :: acc)
      | ']' :: t => some (.arr (v :: acc).reverse, t)
      | _ => none

/-- Comma-separated key-value pairs up to the closing brace. -/
def parseObjElems : Nat → List Char → List (String × Json) →
    Option (Json × List Char)
  | 0, _, _ => none
  | fuel + 1, s, acc =>
    match skipWs s with
    | '"' :: t =>
      (match parseStrAux [] t with
       | none => none
       | some (k, r) =>
         match skipWs r with
         | ':' :: r2 =>
           (match parseVal fuel r2 with
            | none => none
            | some (v, r3) =>
              match skipWs r3 with
              | ',' :: t2 => parseObjElems fuel t2 ((String.mk k, v) :: acc)
              | '}' :: t2 => some (.obj ((String.mk k, v) :: acc).reverse, t2)
              | _ => none)
         | _ => none)
    | _ => none

end

/-- `json.loads`: parse one value and require only whitespace after it. -/
def json_loads (s : String) : Option Json :=
  match parseVal (s.data.length + 1) s.data with
  | some (v, rest) => if skipWs rest = [] then some v else none
  | none => none

/-- The Markdown code-fence cleanup of `_parse_ai_response`
(parse_news.py): strip, then remove every occurrence of the fence
tokens when the text starts with one, then strip again. -/
def strip_code_fence (response_text : String) : String :=
  let t := pyStrip response_text
  if pyStartsWith t "```json" then
    pyStrip (pyReplace (pyReplace t "```json" "") "```" "")
  else if pyStartsWith t "```" then
    pyStrip (pyReplace t "```" "")
  else t

/-- The validated response record `_parse_ai_response` returns: the four
coerced fields, still at the JSON level because `json.loads` can put
any JSON value under each key. -/
structure AIRaw where
  quotes : Json
  speakers : Json
  province : Json
  city : Json

/-- The canonical empty result `_empty_result` (parse_news.py). -/
def empty_raw_result : AIRaw :=
  ⟨.arr [], .arr [], .null, .null⟩

/-- `_parse_ai_response` (parse_news.py): strip code fences, parse as
JSON, reject non-objects, then coerce each field independently —
`result.get(quotes, empty array) or empty array` and
`result.get(province) or None`. -/
def parse_ai_response (response_text : String) : AIRaw :=
  match json_loads (strip_code_fence response_text) with
  | some (Json.obj kvs) =>
    { quotes :=
        let v := jsonGetD kvs "quotes" (.arr [])
        if pyTruthy v then v else .arr []
      speakers :=
        let v := jsonGetD kvs "speakers" (.arr [])
        if pyTruthy v then v else .arr []
      province :=
        let v := jsonGetD kvs "province" .null
        if pyTruthy v then v else .null
      city :=
        let v := jsonGetD kvs "city" .null
        if pyTruthy v then v else .null }
  | some _ => empty_raw_result
  | none => empty_raw_result

/-! ## Stage 3 variant: parse_self_content.py — bounded-time extraction -/

/-- What one alarm-guarded provider attempt does inside
`extract_info_with_ai` (parse_self_content.py): the inner call either
returns a coerced extraction dictionary, is interrupted by the
wall-clock alarm, or raises some other exception. -/
inductive AIAttempt where
  | ok (quotes speakers : List String) (province city : Option String)
  | timedOut
  | exn (msg : String)

/-- The dictionary `extract_info_with_ai` (parse_self_content.py)
returns; `error` is the value of `result.get(the error key, empty
string)` read downstream, so the no-error dictionaries carry the empty
string here. -/
structure SelfExtract where
  quotes : List String
  speakers : List String
  province : Option String
  city : Option String
  error : String
deriving DecidableEq, Repr

/-- The `for attempt in range(max_retries)` loop of
`extract_info_with_ai` (parse_self_content.py); `fuel` counts the
remaining iterations, so the `attempt < max_retries - 1` retry test
becomes `fuel ≠ 1`.  The fuel-0 value is the unreachable fall-through
result at the end of the function. -/
def extractLoop (env : Nat → AIAttempt) : Nat → Nat → SelfExtract
  | _, 0 => ⟨[], [], some "ERROR", some "ERROR", "unknown"⟩
  | attempt, fuel + 1 =>
    match env attempt with
    | .ok quotes speakers province city => ⟨quotes, speakers, province, city, ""⟩
    | .timedOut =>
      if fuel = 0 then
        ⟨[], [], some "ERROR TIMEOUT", some "ERROR TIMEOUT", "timeout"⟩
      else extractLoop env (attempt + 1) fuel
    | .exn _ =>
      if fuel = 0 then ⟨[], [], some "ERROR", some "ERROR", "exception"⟩
      else extractLoop env (attempt + 1) fuel

/-- `extract_info_with_ai` (parse_self_content.py): run up to
`max_retries` alarm-guarded attempts. -/
def extract_info_with_ai (env : Nat → AIAttempt) (max_retries : Nat) : SelfExtract :=
  extractLoop env 0 max_retries

/-- One result row assembled by `batch_parse`
(parse_self_content.py). -/
structure SelfResult where
  id : String
  date : String
  source : String
  quotes : List String
  speakers : List String
  province : Option String
  city : Option String
  error : String
deriving DecidableEq, Repr

/-- The merge step of `batch_parse` (parse_self_content.py) for an
article that had content: identifiers from the input row, the rest
from the extraction result. -/
def mkSelfResult (id date source : String) (e : SelfExtract) : SelfResult :=
  ⟨id, date, source, e.quotes, e.speakers, e.province, e.city, e.error⟩

/-- The row of all `ERROR TIMEOUT` sentinels written for a timed-out
article (`save_parsed_csv`, parse_self_content.py). -/
def timeoutRow (r : SelfResult) : OutputRow :=
  ⟨r.id, r.date, r.source, "ERROR TIMEOUT", "ERROR TIMEOUT", "ERROR TIMEOUT",
   "ERROR TIMEOUT", "", "", "", ""⟩

/-- The rows `save_parsed_csv` (parse_self_content.py) writes for one
article: the timeout sentinel row, the no-quote row, or one row per
quote — the last two branches shared with parse_news.py. -/
def selfRowsFor (whitelist : List WhitelistEntry) (r : SelfResult) : List OutputRow :=
  if r.error = "timeout" then [timeoutRow r]
  else if r.quotes = [] then
    [⟨r.id, r.date, r.source, "", "", orEmpty r.province, orEmpty r.city, "", "", "", ""⟩]
  else
    flattenQuotes
      (fun i quote =>
        let spoke_person := r.speakers.getD i ""
        let m := match_speaker spoke_person whitelist
        ⟨r.id, r.date, r.source, quote, spoke_person, orEmpty r.province, orEmpty r.city,
         m.jabatan, m.category, m.«alias», m.fullname⟩)
      0 r.quotes

/-! ## Concrete instances used by counterexamples and witnesses -/

/-- Environment whose primary provider answers HTTP 403 on every page
and attempt, and whose fallback recovers nothing. -/
def envForbidden : ScrapeEnv :=
  ⟨fun _ _ => .ok 403 ⟨none, none⟩, fun _ => none⟩

/-- An HTTP-200 Diffbot body whose single article object carries an
empty body text. -/
def jsonEmptyText : DiffbotJson :=
  ⟨none, some [⟨"T", "", "", ""⟩]⟩

/-- Environment whose primary provider always answers HTTP 200 with an
article object whose body text is empty. -/
def envEmptyText : ScrapeEnv :=
  ⟨fun _ _ => .ok 200 jsonEmptyText, fun _ => none⟩

/-- Environment whose primary provider always answers HTTP 200 with no
`objects` array, and whose fallback recovers nothing. -/
def envForbiddenNoObjects : ScrapeEnv :=
  ⟨fun _ _ => .ok 200 ⟨none, none⟩, fun _ => none⟩

/-- A 150-character page body. -/
def xs150 : String := String.mk (List.replicate 150 'x')

/-- Environment for the later-page-failure scenario: page 1 succeeds
with a 150-character body, page 2 reports no content. -/
def envPage2NoContent : ScrapeEnv :=
  ⟨fun i _ => if i = 1 then .ok 200 ⟨none, some [⟨"T", xs150, "", ""⟩]⟩
              else .ok 200 ⟨none, none⟩,
   fun _ => none⟩

/-- Environment whose primary provider serves the same long body for
every page. -/
def envAllSameBody : ScrapeEnv :=
  ⟨fun _ _ => .ok 200 ⟨none, some [⟨"T", xs150, "", ""⟩]⟩, fun _ => none⟩

/-- Roster whose single entry has a comma-separated two-alias field. -/
def rosterTwoAliases : List WhitelistEntry :=
  [⟨"John Doe", "Governor", "gov", "john doe, jane"⟩]

/-- Roster whose single entry has a single-alias field. -/
def rosterZainal : List WhitelistEntry :=
  [⟨"Zainal Arifin", "Mayor", "gov", "zainal"⟩]

/-- The code-fenced LLM response of the validation scenario. -/
def c8Response : String :=
  "```json\n\x7b\"quotes\":[\"hi\"],\"speakers\":[],\"province\":null,\"city\":\"Jakarta\"\x7d\n```"

/-- The object bindings `json.loads` recovers from `c8Response` after
fence stripping. -/
def c8Bindings : List (String × Json) :=
  [("quotes", .arr [.str "hi"]), ("speakers", .arr []),
   ("province", .null), ("city", .str "Jakarta")]

/-! ## Helper lemmas -/

/-- A string longer than 100 characters is not the empty string. -/
theorem ne_empty_of_len_gt (s : String) (h : 100 < s.length) : s ≠ "" := by
  intro he
  subst he
  simp [String.length] at h

/-- Classification of an HTTP 403 response, for any body and attempt. -/
theorem scrape_with_diffbot_403 (b : DiffbotJson) (a : Nat) :
    scrape_with_diffbot (.ok 403 b) a =
      if a < MAX_RETRIES then DiffbotResult.err "FORBIDDEN_RETRY" "HTTP 403 - Access Forbidden"
      else DiffbotResult.err "FORBIDDEN" "HTTP 403 - Access Forbidden" := rfl

/-- The retry loop stops after the first attempt whenever that attempt
is not the retryable-forbidden sub-kind. -/
theorem retryLoop_first (fetch : Nat → DiffbotResult) (r : DiffbotResult)
    (h0 : fetch 0 = r) (h : isForbiddenRetry r = false) :
    retryLoop fetch = (some r, 1, 0) := by
  show retryLoopAux fetch 0 (3 + 1) = _
  simp [retryLoopAux, h0, h]

/-- One page iteration that breaks propagates as the last iteration of
the page loop. -/
theorem scrapePagesAux_stop (env : ScrapeEnv) (i fuel : Nat) (st st2 : ScrapeState)
    (ps : PageStats) (h : processPage env i st = (.stop st2, ps)) :
    scrapePagesAux env i (fuel + 1) st = (st2, [ps]) := by
  simp [scrapePagesAux, h]

/-- One page iteration that continues prefixes the remaining page
loop. -/
theorem scrapePagesAux_cont (env : ScrapeEnv) (i fuel : Nat) (st st2 : ScrapeState)
    (ps : PageStats) (h : processPage env i st = (.cont st2, ps)) :
    scrapePagesAux env i (fuel + 1) st =
      ((scrapePagesAux env (i + 1) fuel st2).1,
        ps :: (scrapePagesAux env (i + 1) fuel st2).2) := by
  simp [scrapePagesAux, h]

/-- The error dispatch of the page loop, uniform over every error kind
for the 1-based page indices the loop produces. -/
theorem handleError_eq (env : ScrapeEnv) (i : Nat) (st : ScrapeState) (kind : String)
    (hi : 1 ≤ i) :
    handleError env i st kind =
      if i = 1 then (tryTrafilatura env i st, true) else (.stop st, false) := by
  unfold handleError
  by_cases h1 : i = 1
  · subst h1
    split_ifs <;> first | rfl | omega
  · have hgt : i > 1 := by omega
    simp only [if_neg h1, if_pos hgt]
    split_ifs <;> rfl

/-- Page count of the pagination plan. -/
theorem detect_pagination_length (u : String) :
    (detect_pagination u).length = MAX_PAGES := by
  unfold detect_pagination
  split_ifs <;> simp [List.length_range', MAX_PAGES]

/-- Trafilatura is never consulted on a page beyond the first. -/
theorem processPage_trafTried_false (env : ScrapeEnv) (i : Nat) (st : ScrapeState)
    (hi : 2 ≤ i) :
    (processPage env i st).2.trafTried = false := by
  unfold processPage
  rcases hr : retryLoop (fun a => scrape_with_diffbot (env.http i a) a) with ⟨r, n, slp⟩
  rcases r with _ | r
  · rfl
  · rcases r with ⟨kind, msg⟩ | ⟨t, c, d, a⟩
    · dsimp only
      rw [handleError_eq env i st kind (by omega)]
      have h1 : i ≠ 1 := by omega
      simp [h1]
    · dsimp only
      split_ifs <;> rfl

/-- Every page-statistics entry after the first belongs to a page index
of at least two, hence records no fallback attempt. -/
theorem scrapePagesAux_tail_no_traf (env : ScrapeEnv) (fuel : Nat) :
    ∀ i st, 2 ≤ i → ∀ ps ∈ (scrapePagesAux env i fuel st).2, ps.trafTried = false := by
  induction fuel with
  | zero => intro i st hi ps hps; simp [scrapePagesAux] at hps
  | succ f ih =>
    intro i st hi ps hps
    rcases hp : processPage env i st with ⟨out, pstat⟩
    have hstat : pstat.trafTried = false := by
      have := processPage_trafTried_false env i st hi
      rw [hp] at this
      exact this
    rcases out with st2 | st2
    · rw [scrapePagesAux_cont env i f st st2 pstat hp] at hps
      rcases List.mem_cons.mp hps with hps | hps
      · rw [hps]; exact hstat
      · exact ih (i + 1) st2 (by omega) ps hps
    · rw [scrapePagesAux_stop env i f st st2 pstat hp] at hps
      simp at hps
      rw [hps]; exact hstat

/-- Shape of one page iteration whose retry loop ended in an error
record. -/
theorem processPage_eq_err (env : ScrapeEnv) (i : Nat) (st : ScrapeState)
    (kind msg : String) (n slp : Nat)
    (hl : retryLoop (fun a => scrape_with_diffbot (env.http i a) a) =
      (some (.err kind msg), n, slp)) :
    processPage env i st =
      ((handleError env i st kind).1, ⟨n, slp, (handleError env i st kind).2⟩) := by
  unfold processPage
  rw [hl]

/-- `scrape_all_pages` in terms of the page-loop projections. -/
theorem scrape_all_pages_proj (env : ScrapeEnv) (u : String) :
    scrape_all_pages env u =
      ((if (scrapePagesAux env 1 MAX_PAGES initScrapeState).1.allContent ≠ [] then
          some ⟨(scrapePagesAux env 1 MAX_PAGES initScrapeState).1.title,
                joinWith PAGE_BREAK
                  (scrapePagesAux env 1 MAX_PAGES initScrapeState).1.allContent,
                (scrapePagesAux env 1 MAX_PAGES initScrapeState).1.date,
                (scrapePagesAux env 1 MAX_PAGES initScrapeState).1.author,
                (scrapePagesAux env 1 MAX_PAGES initScrapeState).1.allContent.length,
                (scrapePagesAux env 1 MAX_PAGES initScrapeState).1.method⟩
        else none),
       (scrapePagesAux env 1 MAX_PAGES initScrapeState).2) := by
  unfold scrape_all_pages
  rw [detect_pagination_length]

/-- The statistics list of a whole scrape never records a fallback
attempt after its first entry. -/
theorem scrape_all_pages_tail_no_traf (env : ScrapeEnv) (u : String) :
    ∀ ps ∈ ((scrape_all_pages env u).2).tail, ps.trafTried = false := by
  intro ps hps
  rw [scrape_all_pages_proj] at hps
  have h5 : MAX_PAGES = 4 + 1 := rfl
  rw [h5] at hps
  rcases hp : processPage env 1 initScrapeState with ⟨out, pstat⟩
  rcases out with st2 | st2
  · rw [scrapePagesAux_cont env 1 4 initScrapeState st2 pstat hp] at hps
    exact scrapePagesAux_tail_no_traf env 4 2 st2 (by omega) ps (by simpa using hps)
  · rw [scrapePagesAux_stop env 1 4 initScrapeState st2 pstat hp] at hps
    simp at hps

/-! ## Claims -/

/-- C1: when the primary provider returns HTTP 403 (Forbidden) on every
attempt for a page, the page loop attempts the primary provider
exactly MAX_RETRIES + 1 = 4 times, sleeping the 5-second retry delay
between consecutive attempts (3 sleeps), and only then invokes the
fallback provider (on page 1) or stops pagination (on a later
page). -/
theorem claim_C1_retry_bound (env : ScrapeEnv) (i : Nat) (st : ScrapeState)
    (b : DiffbotJson) (hi : 1 ≤ i) (h : ∀ attempt, env.http i attempt = .ok 403 b) :
    (processPage env i st).2.attempts = MAX_RETRIES + 1 ∧
    MAX_RETRIES + 1 = 4 ∧
    (processPage env i st).2.retrySleeps = 3 ∧
    RETRY_DELAY = 5 ∧
    (i = 1 → (processPage env i st).2.trafTried = true) ∧
    (1 < i → (processPage env i st).1 = .stop st ∧
      (processPage env i st).2.trafTried = false) := by
  have hfe : (fun a => scrape_with_diffbot (env.http i a) a) =
      (fun a => if a < MAX_RETRIES then
          DiffbotResult.err "FORBIDDEN_RETRY" "HTTP 403 - Access Forbidden"
        else DiffbotResult.err "FORBIDDEN" "HTTP 403 - Access Forbidden") := by
    funext a
    rw [h a, scrape_with_diffbot_403]
  have hloop : retryLoop (fun a => scrape_with_diffbot (env.http i a) a) =
      (some (.err "FORBIDDEN" "HTTP 403 - Access Forbidden"), 4, 3) := by
    rw [hfe]; rfl
  have hpp := processPage_eq_err env i st "FORBIDDEN" "HTTP 403 - Access Forbidden" 4 3 hloop
  rw [hpp, handleError_eq env i st "FORBIDDEN" hi]
  refine ⟨?_, rfl, ?_, rfl, ?_, ?_⟩
  · by_cases h1 : i = 1 <;> simp [h1, MAX_RETRIES]
  · by_cases h1 : i = 1 <;> simp [h1]
  · intro h1; simp [h1]
  · intro h1
    have h1' : i ≠ 1 := by omega
    simp [h1']

/-- Witness for C1 at a concrete all-403 environment on page 2. -/
theorem claim_C1_retry_bound_witness :
    (processPage envForbidden 2 initScrapeState).2.attempts = MAX_RETRIES + 1 ∧
    MAX_RETRIES + 1 = 4 ∧
    (processPage envForbidden 2 initScrapeState).2.retrySleeps = 3 ∧
    RETRY_DELAY = 5 ∧
    (2 = 1 → (processPage envForbidden 2 initScrapeState).2.trafTried = true) ∧
    (1 < 2 → (processPage envForbidden 2 initScrapeState).1 = .stop initScrapeState ∧
      (processPage envForbidden 2 initScrapeState).2.trafTried = false) :=
  claim_C1_retry_bound envForbidden 2 initScrapeState ⟨none, none⟩ (by decide)
    (fun _ => rfl)

/-- C2 counterexample: for the explicit page-1 outcome HTTP 200 carrying
an article object whose body text is empty, the provider client
returns a success record with empty content — not a NoContent
classification — and the scraper breaks at page 1 without ever
attempting the fallback provider, so the claimed fallback attempt does
not happen. -/
theorem claim_C2_counterexample :
    scrape_with_diffbot (.ok 200 jsonEmptyText) 0 = .ok "T" "" "" "" ∧
    (scrape_all_pages envEmptyText "https://example.com/a").2 = [⟨1, 0, false⟩] ∧
    (scrape_all_pages envEmptyText "https://example.com/a").1 = none := by
  exact ⟨rfl, rfl, rfl⟩

/-- C2 amended: an HTTP-200 page-1 response with no article objects is
classified NO_CONTENT and triggers the single fallback attempt, whose
output is accepted only when longer than 100 characters, the whole
scrape failing otherwise; the fallback is never attempted on a later
page.  (A response carrying an article object with an empty body text
is instead a success record with empty content and stops page 1
without a fallback attempt, per the counterexample.) -/
theorem claim_C2_no_content_fallback (env : ScrapeEnv) (u : String) (b : DiffbotJson)
    (hb : env.http 1 0 = .ok 200 b) (he : b.error = none)
    (ho : b.objects = none ∨ b.objects = some []) :
    scrape_with_diffbot (env.http 1 0) 0 = .err "NO_CONTENT" "No article content found" ∧
    (processPage env 1 initScrapeState).2.trafTried = true ∧
    (env.traf 1 = none → (scrape_all_pages env u).1 = none) ∧
    (∀ t, env.traf 1 = some t → t.text.length ≤ 100 →
      (scrape_all_pages env u).1 = none) ∧
    (∀ ps ∈ ((scrape_all_pages env u).2).tail, ps.trafTried = false) := by
  have hcls : scrape_with_diffbot (env.http 1 0) 0 =
      .err "NO_CONTENT" "No article content found" := by
    rw [hb]
    rcases ho with h | h <;> simp [scrape_with_diffbot, he, h]
  have hloop : retryLoop (fun a => scrape_with_diffbot (env.http 1 a) a) =
      (some (.err "NO_CONTENT" "No article content found"), 1, 0) :=
    retryLoop_first _ _ hcls rfl
  have hpp := processPage_eq_err env 1 initScrapeState "NO_CONTENT"
    "No article content found" 1 0 hloop
  have hhe := handleError_eq env 1 initScrapeState "NO_CONTENT" (by omega)
  rw [if_pos rfl] at hhe
  have h5 : MAX_PAGES = 4 + 1 := rfl
  refine ⟨hcls, ?_, ?_, ?_, scrape_all_pages_tail_no_traf env u⟩
  · rw [hpp, hhe]
  · intro htraf
    have hstop : processPage env 1 initScrapeState =
        (.stop initScrapeState, ⟨1, 0, true⟩) := by
      rw [hpp, hhe]
      simp [tryTrafilatura, htraf]
    rw [scrape_all_pages_proj, h5,
      scrapePagesAux_stop env 1 4 initScrapeState initScrapeState ⟨1, 0, true⟩ hstop]
    simp [initScrapeState]
  · intro t htraf hlen
    have hstop : processPage env 1 initScrapeState =
        (.stop initScrapeState, ⟨1, 0, true⟩) := by
      rw [hpp, hhe]
      have hcond : ¬ (t.text ≠ "" ∧ t.text.length > 100) := by
        rintro ⟨_, hgt⟩
        omega
      simp [tryTrafilatura, htraf, hcond]
    rw [scrape_all_pages_proj, h5,
      scrapePagesAux_stop env 1 4 initScrapeState initScrapeState ⟨1, 0, true⟩ hstop]
    simp [initScrapeState]

/-- Witness for the amended C2 at a concrete no-objects environment
whose fallback recovers nothing. -/
theorem claim_C2_no_content_fallback_witness :
    scrape_with_diffbot (envForbiddenNoObjects.http 1 0) 0 =
      .err "NO_CONTENT" "No article content found" ∧
    (processPage envForbiddenNoObjects 1 initScrapeState).2.trafTried = true ∧
    (scrape_all_pages envForbiddenNoObjects "u").1 = none := by
  have h := claim_C2_no_content_fallback envForbiddenNoObjects "u" ⟨none, none⟩
    rfl rfl (Or.inl rfl)
  exact ⟨h.1, h.2.1, h.2.2.1 rfl⟩

/-- C6: when the accepted page-2 body is byte-identical to the accepted
page-1 body, pagination stops at page 2 and the duplicate is neither
appended to the merged article body nor counted in pages_scraped. -/
theorem claim_C6_duplicate_stop (env : ScrapeEnv) (u : String)
    (t1 t2 b d1 d2 a1 a2 : String)
    (h1 : scrape_with_diffbot (env.http 1 0) 0 = .ok t1 b d1 a1)
    (h2 : scrape_with_diffbot (env.http 2 0) 0 = .ok t2 b d2 a2)
    (hb : 100 < b.length) :
    (scrape_all_pages env u).1 = some ⟨t1, b, d1, a1, 1, "diffbot"⟩ ∧
    (scrape_all_pages env u).2.length = 2 := by
  have hbne : b ≠ "" := ne_empty_of_len_gt b hb
  have hloop1 : retryLoop (fun a => scrape_with_diffbot (env.http 1 a) a) =
      (some (.ok t1 b d1 a1), 1, 0) := retryLoop_first _ _ h1 rfl
  have hloop2 : retryLoop (fun a => scrape_with_diffbot (env.http 2 a) a) =
      (some (.ok t2 b d2 a2), 1, 0) := retryLoop_first _ _ h2 rfl
  have hp1 : processPage env 1 initScrapeState =
      (.cont ⟨[b], t1, d1, a1, "diffbot"⟩, ⟨1, 0, false⟩) := by
    unfold processPage
    rw [hloop1]
    simp [initScrapeState, hbne, hb]
  have hp2 : processPage env 2 ⟨[b], t1, d1, a1, "diffbot"⟩ =
      (.stop ⟨[b], t1, d1, a1, "diffbot"⟩, ⟨1, 0, false⟩) := by
    unfold processPage
    rw [hloop2]
    simp [hbne, hb]
  have h5 : MAX_PAGES = 4 + 1 := rfl
  have h4 : (4 : Nat) = 3 + 1 := rfl
  rw [scrape_all_pages_proj, h5, scrapePagesAux_cont env 1 4 initScrapeState _ _ hp1, h4,
    scrapePagesAux_stop env 2 3 _ _ _ hp2]
  exact ⟨by simp [joinWith], by simp⟩

set_option maxRecDepth 8000 in
/-- Witness for C6: every page serves the same 150-character body, and
the scrape keeps exactly page 1. -/
theorem claim_C6_duplicate_stop_witness :
    (scrape_all_pages envAllSameBody "u").1 = some ⟨"T", xs150, "", "", 1, "diffbot"⟩ ∧
    (scrape_all_pages envAllSameBody "u").2.length = 2 :=
  claim_C6_duplicate_stop envAllSameBody "u" "T" "T" xs150 "" "" "" "" rfl rfl
    (by decide)

/-- C7: a page-1 success with a 150-character body followed by a page-2
NoContent failure yields an article with pages_scraped = 1 and a body
equal to the page-1 body, with no page-break marker appended. -/
theorem claim_C7_later_page_failure (env : ScrapeEnv) (u : String)
    (t1 b d1 a1 : String)
    (h1 : scrape_with_diffbot (env.http 1 0) 0 = .ok t1 b d1 a1)
    (h2 : scrape_with_diffbot (env.http 2 0) 0 =
      .err "NO_CONTENT" "No article content found")
    (hb : b.length = 150) :
    (scrape_all_pages env u).1 = some ⟨t1, b, d1, a1, 1, "diffbot"⟩ ∧
    (scrape_all_pages env u).2.length = 2 := by
  have hb' : 100 < b.length := by omega
  have hbne : b ≠ "" := ne_empty_of_len_gt b hb'
  have hloop1 : retryLoop (fun a => scrape_with_diffbot (env.http 1 a) a) =
      (some (.ok t1 b d1 a1), 1, 0) := retryLoop_first _ _ h1 rfl
  have hloop2 : retryLoop (fun a => scrape_with_diffbot (env.http 2 a) a) =
      (some (.err "NO_CONTENT" "No article content found"), 1, 0) :=
    retryLoop_first _ _ h2 rfl
  have hp1 : processPage env 1 initScrapeState =
      (.cont ⟨[b], t1, d1, a1, "diffbot"⟩, ⟨1, 0, false⟩) := by
    unfold processPage
    rw [hloop1]
    simp [initScrapeState, hbne, hb']
  have hp2 : processPage env 2 ⟨[b], t1, d1, a1, "diffbot"⟩ =
      (.stop ⟨[b], t1, d1, a1, "diffbot"⟩, ⟨1, 0, false⟩) := by
    rw [processPage_eq_err env 2 _ "NO_CONTENT" "No article content found" 1 0 hloop2,
      handleError_eq env 2 _ "NO_CONTENT" (by omega)]
    simp
  have h5 : MAX_PAGES = 4 + 1 := rfl
  have h4 : (4 : Nat) = 3 + 1 := rfl
  rw [scrape_all_pages_proj, h5, scrapePagesAux_cont env 1 4 initScrapeState _ _ hp1, h4,
    scrapePagesAux_stop env 2 3 _ _ _ hp2]
  exact ⟨by simp [joinWith], by simp⟩

set_option maxRecDepth 8000 in
/-- Witness for C7 at the concrete page-2-NoContent environment. -/
theorem claim_C7_later_page_failure_witness :
    (scrape_all_pages envPage2NoContent "https://example.com/a").1 =
      some ⟨"T", xs150, "", "", 1, "diffbot"⟩ ∧
    (scrape_all_pages envPage2NoContent "https://example.com/a").2.length = 2 :=
  claim_C7_later_page_failure envPage2NoContent "https://example.com/a" "T" xs150 "" ""
    rfl rfl (by decide)

/-- The enumerate loop writes one row per quote. -/
theorem flattenQuotes_length (mk : Nat → String → OutputRow) (qs : List String) :
    ∀ i, (flattenQuotes mk i qs).length = qs.length := by
  induction qs with
  | nil => intro i; rfl
  | cons q qs ih => intro i; simp [flattenQuotes, ih]

/-- The row written at offset `j` of the enumerate loop started at `i`
is built from quote index `i + j`. -/
theorem flattenQuotes_getD (mk : Nat → String → OutputRow) (d : OutputRow)
    (qs : List String) :
    ∀ i j, j < qs.length →
      (flattenQuotes mk i qs).getD j d = mk (i + j) (qs.getD j "") := by
  induction qs with
  | nil => intro i j hj; simp at hj
  | cons q qs ih =>
    intro i j hj
    cases j with
    | zero => simp [flattenQuotes]
    | succ j =>
      have hj' : j < qs.length := by simpa using hj
      simp only [flattenQuotes, List.getD_cons_succ]
      rw [ih (i + 1) j hj']
      congr 1
      omega

/-- C3: the record flattener emits exactly one row — with empty quote
and speaker but the article's province and city — when the quotes list
is empty, and exactly one row per quote otherwise, so every article
yields at least one output row. -/
theorem claim_C3_row_counts (whitelist : List WhitelistEntry) (r : ParsedResult) :
    (r.quotes = [] →
      rowsFor whitelist r = [noQuoteRow r] ∧
      (noQuoteRow r).quote = "" ∧ (noQuoteRow r).spoke_person = "" ∧
      (noQuoteRow r).province = orEmpty r.province ∧
      (noQuoteRow r).city = orEmpty r.city) ∧
    (r.quotes ≠ [] → (rowsFor whitelist r).length = r.quotes.length) ∧
    1 ≤ (rowsFor whitelist r).length := by
  refine ⟨fun hq => ⟨by simp [rowsFor, hq], rfl, rfl, rfl, rfl⟩, fun hq => ?_, ?_⟩
  · simp [rowsFor, hq, flattenQuotes_length]
  · by_cases hq : r.quotes = []
    · simp [rowsFor, hq]
    · have := flattenQuotes_length (quoteRow whitelist r) r.quotes 0
      have hlen : 0 < r.quotes.length := List.length_pos.mpr hq
      simp [rowsFor, hq, this]
      omega

/-- Witness for C3 at a one-quote result and at the corresponding
zero-quote result. -/
theorem claim_C3_row_counts_witness :
    (rowsFor [] ⟨"1", "2024-01-01", "u", ["hi"], [], some "DKI Jakarta",
      some "Jakarta"⟩).length = ["hi"].length :=
  (claim_C3_row_counts [] ⟨"1", "2024-01-01", "u", ["hi"], [], some "DKI Jakarta",
    some "Jakarta"⟩).2.1 (by decide)

/-- C4: for every quote index, the flattener pairs the quote with
`speakers[i]` when in range and with the empty string when
`i ≥ len(speakers)`; the guarded access is total, so no index error is
possible, in both parse_news.py and parse_self_content.py. -/
theorem claim_C4_speaker_padding (whitelist : List WhitelistEntry) (r : ParsedResult)
    (sr : SelfResult) (i j : Nat) (hi : i < r.quotes.length) (hj : j < sr.quotes.length)
    (hsr : sr.error ≠ "timeout") :
    ((rowsFor whitelist r).getD i (noQuoteRow r)).spoke_person =
      r.speakers.getD i "" ∧
    (r.speakers.length ≤ i →
      ((rowsFor whitelist r).getD i (noQuoteRow r)).spoke_person = "") ∧
    ((selfRowsFor whitelist sr).getD j (timeoutRow sr)).spoke_person =
      sr.speakers.getD j "" ∧
    (sr.speakers.length ≤ j →
      ((selfRowsFor whitelist sr).getD j (timeoutRow sr)).spoke_person = "") := by
  have hq : r.quotes ≠ [] := by
    intro h; rw [h] at hi; simp at hi
  have hq2 : sr.quotes ≠ [] := by
    intro h; rw [h] at hj; simp at hj
  have h1 : ((rowsFor whitelist r).getD i (noQuoteRow r)).spoke_person =
      r.speakers.getD i "" := by
    rw [rowsFor, if_neg hq, flattenQuotes_getD _ _ _ 0 i hi]
    simp [quoteRow]
  have h2 : ((selfRowsFor whitelist sr).getD j (timeoutRow sr)).spoke_person =
      sr.speakers.getD j "" := by
    rw [selfRowsFor, if_neg hsr, if_neg hq2, flattenQuotes_getD _ _ _ 0 j hj]
    simp
  refine ⟨h1, fun hle => ?_, h2, fun hle => ?_⟩
  · rw [h1, List.getD_eq_default _ _ hle]
  · rw [h2, List.getD_eq_default _ _ hle]

/-- Witness for C4 at a result with two quotes and one speaker. -/
theorem claim_C4_speaker_padding_witness :
    ((rowsFor [] ⟨"1", "d", "u", ["q1", "q2"], ["Ana"], none, none⟩).getD 1
      (noQuoteRow ⟨"1", "d", "u", ["q1", "q2"], ["Ana"], none, none⟩)).spoke_person =
      "" :=
  (claim_C4_speaker_padding [] ⟨"1", "d", "u", ["q1", "q2"], ["Ana"], none, none⟩
      ⟨"1", "d", "u", ["q"], [], none, none, ""⟩ 1 0 (by decide) (by decide)
      (by decide)).2.1 (by decide)

/-- C10: the entity resolver answers the all-empty entry for an empty
speaker text, and for an empty roster, without consulting any alias —
in particular an empty speaker text matches no roster entry even
though the empty string is a substring of every alias. -/
theorem claim_C10_empty_speaker :
    (∀ whitelist, match_speaker "" whitelist = emptyMatch) ∧
    (∀ spoke_person, match_speaker spoke_person [] = emptyMatch) ∧
    (∀ a : String, pyIn "" a = true) := by
  refine ⟨fun whitelist => ?_, fun spoke_person => ?_, fun a => ?_⟩
  · simp [match_speaker]
  · simp [match_speaker]
  · rcases a with ⟨l⟩
    cases l <;> rfl

/-- C5 counterexample: with the roster entry whose alias field is
`john doe, jane` and speaker text `doe, ja`, the two-pass matcher
matches (the text is a substring of the raw comma-joined field, found
by the second pass) while a single bidirectional per-alias pass finds
nothing — the second pass is not redundant. -/
theorem claim_C5_counterexample :
    match_speaker "doe, ja" rosterTwoAliases =
      ⟨"John Doe", "Governor", "gov", "john doe, jane"⟩ ∧
    match_speaker_single_pass_spec "doe, ja" rosterTwoAliases = emptyMatch ∧
    match_speaker "doe, ja" rosterTwoAliases ≠
      match_speaker_single_pass_spec "doe, ja" rosterTwoAliases := by
  exact ⟨by decide, by decide, by decide⟩

/-- C5 amended: over rosters whose alias fields each hold a single,
already-stripped alias (no comma), the two-pass matcher coincides with
the single bidirectional per-alias pass; the passes differ only
through the raw comma-joined alias field the second pass consults. -/
theorem claim_C5_single_alias_equiv (spoke_person : String)
    (whitelist : List WhitelistEntry)
    (hsplit : ∀ e ∈ whitelist, pySplitComma e.«alias» = [e.«alias»])
    (htrim : ∀ e ∈ whitelist, pyStrip e.«alias» = e.«alias») :
    match_speaker spoke_person whitelist =
      match_speaker_single_pass_spec spoke_person whitelist := by
  by_cases hg : spoke_person = "" ∨ whitelist = []
  · unfold match_speaker match_speaker_single_pass_spec
    rw [if_pos hg, if_pos hg]
  · unfold match_speaker match_speaker_single_pass_spec
    rw [if_neg hg, if_neg hg]
    dsimp only
    generalize pyStrip (pyLower spoke_person) = sl
    cases hfind : List.find? (fun entry => (aliasList entry).any (aliasMatches sl))
        whitelist with
    | some e => rfl
    | none =>
      have hnone : List.find?
          (fun entry => entry.«alias» ≠ "" && pyIn sl entry.«alias») whitelist = none := by
        rw [List.find?_eq_none]
        intro e he h2
        have h1 := (List.find?_eq_none.mp hfind) e he
        apply h1
        simp only [Bool.and_eq_true, decide_eq_true_eq] at h2
        obtain ⟨hne, hin⟩ := h2
        have halias : aliasList e = [e.«alias»] := by
          rw [aliasList, if_pos hne, hsplit e he]
          simp [htrim e he]
        simp [halias, aliasMatches, hne, hin]
      rw [hnone]

/-- Witness for the amended C5 at a single-alias roster and the spec's
own scenario speaker text. -/
theorem claim_C5_single_alias_equiv_witness :
    match_speaker "Zainal Arifin" rosterZainal =
      match_speaker_single_pass_spec "Zainal Arifin" rosterZainal :=
  claim_C5_single_alias_equiv "Zainal Arifin" rosterZainal (by decide) (by decide)

/-- Every attempt timing out drives the bounded-time extraction loop to
the timeout sentinel, for any positive remaining fuel. -/
theorem extractLoop_all_timeout (env : Nat → AIAttempt) (henv : ∀ a, env a = .timedOut) :
    ∀ fuel a, 1 ≤ fuel →
      extractLoop env a fuel =
        ⟨[], [], some "ERROR TIMEOUT", some "ERROR TIMEOUT", "timeout"⟩ := by
  intro fuel
  induction fuel with
  | zero => intro a h; omega
  | succ f ih =>
    intro a _
    simp only [extractLoop, henv a]
    by_cases hf : f = 0
    · subst hf; simp
    · rw [if_neg hf]
      exact ih (a + 1) (by omega)

/-- C9: when every alarm-guarded attempt exceeds the wall-clock timeout,
the bounded-time extractor returns the `ERROR TIMEOUT` sentinel in
province and city (not null), and the article is still written as
exactly one output row rather than dropped. -/
theorem claim_C9_timeout_sentinel (env : Nat → AIAttempt) (max_retries : Nat)
    (hmr : 1 ≤ max_retries) (henv : ∀ a, env a = .timedOut)
    (whitelist : List WhitelistEntry) (idv date source : String) :
    extract_info_with_ai env max_retries =
      ⟨[], [], some "ERROR TIMEOUT", some "ERROR TIMEOUT", "timeout"⟩ ∧
    selfRowsFor whitelist
        (mkSelfResult idv date source (extract_info_with_ai env max_retries)) =
      [⟨idv, date, source, "ERROR TIMEOUT", "ERROR TIMEOUT", "ERROR TIMEOUT",
        "ERROR TIMEOUT", "", "", "", ""⟩] ∧
    (selfRowsFor whitelist
        (mkSelfResult idv date source (extract_info_with_ai env max_retries))).length
      = 1 := by
  have he : extract_info_with_ai env max_retries =
      ⟨[], [], some "ERROR TIMEOUT", some "ERROR TIMEOUT", "timeout"⟩ :=
    extractLoop_all_timeout env henv max_retries 0 hmr
  refine ⟨he, ?_, ?_⟩ <;> rw [he] <;> rfl

/-- Witness for C9 at the always-timing-out environment with the default
retry budget. -/
theorem claim_C9_timeout_sentinel_witness :
    extract_info_with_ai (fun _ => .timedOut) 3 =
      ⟨[], [], some "ERROR TIMEOUT", some "ERROR TIMEOUT", "timeout"⟩ ∧
    selfRowsFor [] (mkSelfResult "1" "2024-01-01" "u"
        (extract_info_with_ai (fun _ => .timedOut) 3)) =
      [⟨"1", "2024-01-01", "u", "ERROR TIMEOUT", "ERROR TIMEOUT", "ERROR TIMEOUT",
        "ERROR TIMEOUT", "", "", "", ""⟩] ∧
    (selfRowsFor [] (mkSelfResult "1" "2024-01-01" "u"
        (extract_info_with_ai (fun _ => .timedOut) 3))).length = 1 :=
  claim_C9_timeout_sentinel (fun _ => .timedOut) 3 (by decide) (fun _ => rfl) []
    "1" "2024-01-01" "u"

/-- C8: the response validator strips the Markdown code fence before
JSON parsing and coerces each field independently — on the concrete
fenced response the result is quotes [hi], speakers empty, province
null, city Jakarta; and for any response text parsing to an object,
missing-or-null quote and speaker fields coerce to the empty array
while missing-or-falsy province and city fields coerce to null. -/
theorem claim_C8_response_validation :
    parse_ai_response c8Response =
      ⟨.arr [.str "hi"], .arr [], .null, .str "Jakarta"⟩ ∧
    (∀ s kvs, json_loads (strip_code_fence s) = some (.obj kvs) →
      ((jsonGet kvs "quotes" = none ∨ jsonGet kvs "quotes" = some .null) →
        (parse_ai_response s).quotes = .arr []) ∧
      ((jsonGet kvs "speakers" = none ∨ jsonGet kvs "speakers" = some .null) →
        (parse_ai_response s).speakers = .arr []) ∧
      (jsonGet kvs "province" = none → (parse_ai_response s).province = .null) ∧
      (∀ v, jsonGet kvs "province" = some v → pyTruthy v = false →
        (parse_ai_response s).province = .null) ∧
      (jsonGet kvs "city" = none → (parse_ai_response s).city = .null) ∧
      (∀ v, jsonGet kvs "city" = some v → pyTruthy v = false →
        (parse_ai_response s).city = .null)) := by
  constructor
  · rfl
  · intro s kvs h
    unfold parse_ai_response
    rw [h]
    refine ⟨?_, ?_, ?_, ?_, ?_, ?_⟩
    · rintro (hq | hq) <;> simp [jsonGetD, hq, pyTruthy]
    · rintro (hq | hq) <;> simp [jsonGetD, hq, pyTruthy]
    · intro hq; simp [jsonGetD, hq, pyTruthy]
    · intro v hq hv; simp [jsonGetD, hq, hv]
    · intro hq; simp [jsonGetD, hq, pyTruthy]
    · intro v hq hv; simp [jsonGetD, hq, hv]

/-- Witness for the coercion part of C8 at the concrete fenced
response, whose province field is literally null. -/
theorem claim_C8_response_validation_witness :
    (parse_ai_response c8Response).province = Json.null :=
  (claim_C8_response_validation.2 c8Response c8Bindings rfl).2.2.2.1 Json.null rfl rfl

end NewsExtraction
